import Mathlib

/-!
# Verification of the NES 6502 emulator core

Shallow embedding of `src/bus.rs` and `src/cpu.rs`. Machine integers are
modelled as `Nat` with explicit wrap (`% 256`, `% 65536`) where the Rust
code uses wrapping arithmetic; Rust panics (`todo!`, `expect`, the
`NoneAddressing` arm) are modelled as `Except` errors.
-/

/-- Panic conditions of the Bus (`bus.rs`). `notImplemented` is the
`todo!("Not implemented")` in `Bus::get_real_address` for the PPU register
range `0x2000..=0x3FFF`. -/
inductive BusError where
  | notImplemented
deriving DecidableEq, Repr

/-- `Bus::get_real_address`: decodes a CPU address to an index into the 2 KiB
`cpu_vram` (`Some idx`), to the undecoded region (`None`, reads yield 0 and
writes are dropped), or panics (`todo!`) on the PPU register range. -/
def getRealAddress (address : Nat) : Except BusError (Option Nat) :=
  if address ≤ 0x1FFF then .ok (some (address &&& 0x7FF))
  else if address ≤ 0x3FFF then .error .notImplemented
  else .ok none

/-- The Bus of `bus.rs`: 2 KiB of CPU RAM (`cpu_vram: [u8; 0x800]`),
modelled as a function from index to byte. -/
structure Bus where
  cpu_vram : Nat → Nat

/-- `Bus::new()`: RAM zeroed. -/
def Bus.new : Bus := ⟨fun _ => 0⟩

/-- `Memory::mem_read` for `Bus`. -/
def Bus.memRead (bus : Bus) (address : Nat) : Except BusError Nat :=
  match getRealAddress address with
  | .ok (some idx) => .ok (bus.cpu_vram idx)
  | .ok none => .ok 0
  | .error e => .error e

/-- `Memory::mem_write` for `Bus`. -/
def Bus.memWrite (bus : Bus) (address value : Nat) : Except BusError Bus :=
  match getRealAddress address with
  | .ok (some idx) => .ok ⟨fun j => if j = idx then value else bus.cpu_vram j⟩
  | .ok none => .ok bus
  | .error e => .error e

/-- `Memory::mem_read_u16`: little-endian composite of two byte reads. -/
def Bus.memReadU16 (bus : Bus) (address : Nat) : Except BusError Nat := do
  let low ← bus.memRead address
  let high ← bus.memRead (address + 1)
  return high <<< 8 ||| low

/-- `Memory::mem_write_u16`: low byte at `address`, high byte at `address+1`. -/
def Bus.memWriteU16 (bus : Bus) (address value : Nat) : Except BusError Bus := do
  let low := value % 256
  let high := (value >>> 8) % 256
  let bus ← bus.memWrite address low
  bus.memWrite (address + 1) high

/-! ## CPU state (`cpu.rs`) -/

/-- Bit masks of the `CpuFlags` bitflags. -/
def CARRY : Nat := 0x01
def ZERO : Nat := 0x02
def INTERRUPT_DISABLE : Nat := 0x04
def DECIMAL_MODE : Nat := 0x08
def BREAK : Nat := 0x10
def BREAK2 : Nat := 0x20
def OVERFLOW : Nat := 0x40
def NEGATIVE : Nat := 0x80

/-- `CpuFlags::contains`: all bits of `mask` are set in `flags`. -/
def containsFlag (flags mask : Nat) : Bool := flags &&& mask == mask

/-- `CpuFlags::insert`. -/
def insertFlag (flags mask : Nat) : Nat := flags ||| mask

/-- `CpuFlags::remove` on an 8-bit flag register: clear the bits of `mask`. -/
def removeFlag (flags mask : Nat) : Nat := flags &&& (0xFF ^^^ mask)

/-- Panic conditions of the interpreter (`cpu.rs`). `unrecognizedOpcode` is
the `expect` on the opcode-table lookup; its payload is exactly the data
interpolated into the panic message (`"OpCode {:x} is not regconized"`),
namely the opcode byte alone. `noneAddressingMode` is the panic in
`calculate_address` for `AddressingMode::NoneAddressing`. -/
inductive CpuError where
  | bus (e : BusError)
  | unrecognizedOpcode (code : Nat)
  | noneAddressingMode
  | todoOpcode (code : Nat)
deriving DecidableEq, Repr

/-- Lift a Bus result into the interpreter's error type. -/
def busE {α : Type} : Except BusError α → Except CpuError α
  | .ok a => .ok a
  | .error e => .error (.bus e)

/-- The `Cpu` struct of `cpu.rs`. `flags` is the raw `P` byte. -/
structure Cpu where
  program_counter : Nat
  register_a : Nat
  register_x : Nat
  register_y : Nat
  stack_pointer : Nat
  bus : Bus
  flags : Nat

/-- `Cpu::new`: everything zero except `P = 0b100100`. -/
def Cpu.new (bus : Bus) : Cpu :=
  { program_counter := 0, register_a := 0, register_x := 0, register_y := 0,
    stack_pointer := 0, bus := bus, flags := 0b100100 }

/-- `Cpu::reset`: zero registers, `SP = 0xFD`, `P = 0b100100`,
`PC = mem_read_u16(0xFFFC)`. -/
def Cpu.reset (cpu : Cpu) : Except BusError Cpu := do
  let pc ← cpu.bus.memReadU16 0xFFFC
  return { cpu with
    register_a := 0, register_x := 0, register_y := 0,
    stack_pointer := 0xFD, flags := 0b100100, program_counter := pc }

/-- `Cpu::update_zero_and_negative_flags`. -/
def updateZeroAndNegativeFlags (flags result : Nat) : Nat :=
  let flags := if result = 0 then insertFlag flags ZERO else removeFlag flags ZERO
  if result >>> 7 = 1 then insertFlag flags NEGATIVE else removeFlag flags NEGATIVE

/-- `Cpu::set_register_a`: store and update NZ. -/
def Cpu.setRegisterA (cpu : Cpu) (value : Nat) : Cpu :=
  { cpu with
             register_a := value,
             flags := updateZeroAndNegativeFlags cpu.flags value }

/-- `Cpu::add_to_register_a`: the shared ADC/SBC core. `sum` is the 16-bit
sum `A + data + C`; carry is `sum > 0xFF`; `result = sum as u8`; overflow is
`(data ^ result) & (result ^ A) & 0x80 != 0` against the old `A`. -/
def Cpu.addToRegisterA (cpu : Cpu) (data : Nat) : Cpu :=
  let sum := cpu.register_a + data +
    (if containsFlag cpu.flags CARRY then 1 else 0)
  let carry := sum > 0xFF
  let flags := if carry then insertFlag cpu.flags CARRY
               else removeFlag cpu.flags CARRY
  let result := sum % 256
  let flags := if (data ^^^ result) &&& (result ^^^ cpu.register_a) &&& 0x80 ≠ 0
               then insertFlag flags OVERFLOW else removeFlag flags OVERFLOW
  Cpu.setRegisterA { cpu with flags := flags } result

/-- The operand fed to `add_to_register_a` by `Cpu::sbc`:
`((data as i8).wrapping_neg().wrapping_sub(1)) as u8`, i.e. the bitwise
complement `255 - data` computed with 8-bit wrap. -/
def sbcComplement (data : Nat) : Nat := (511 - data % 256) % 256

/-- `Cpu::sbc` after the operand fetch: feed the complement into the ADC
core. -/
def Cpu.sbcData (cpu : Cpu) (data : Nat) : Cpu :=
  cpu.addToRegisterA (sbcComplement data)

/-- `Cpu::bit` after the operand fetch: flags update of the BIT
instruction. `Z` is set from `param & A`; the code then sets (but never
clears) `V` and `N` from bits 6 and 7 of that same AND result. -/
def Cpu.bitData (cpu : Cpu) (param : Nat) : Cpu :=
  let result := param &&& cpu.register_a
  let flags := if result = 0 then insertFlag cpu.flags ZERO
               else removeFlag cpu.flags ZERO
  let flags := if result &&& 0x40 = 0x40 then insertFlag flags OVERFLOW
               else flags
  let flags := if result &&& 0x80 = 0x80 then insertFlag flags NEGATIVE
               else flags
  { cpu with flags := flags }

/-- The `AddressingMode` enum of `cpu.rs`. -/
inductive AddressingMode where
  | immediate | zeroPage | zeroPageX | zeroPageY | absolute
  | absoluteX | absoluteY | indirectX | indirectY | noneAddressing
deriving DecidableEq, Repr

/-- An opcode-table descriptor: instruction length in bytes and addressing
mode (the two fields the interpreter loop reads). -/
structure OpCode where
  len : Nat
  mode : AddressingMode
deriving DecidableEq, Repr

/-- Modelled from the spec: the opcode table `OPCODES_MAP` lives in
`opscode.rs`, which is not among the sources. Per the spec it is a static
map over the official 6502 instruction set whose descriptors carry the
length (1 for implied/accumulator forms, 2 for immediate, zero-page and
relative forms, 3 for absolute and indirect forms) and the addressing
mode; opcodes handled inline by the interpreter (branches, jumps, JSR)
carry `NoneAddressing`. -/
def opcodeEntry (code : Nat) : Option OpCode :=
  match code with
  | 0x09 | 0x29 | 0x49 | 0x69 | 0xa0 | 0xa2 | 0xa9 | 0xc0 | 0xc9 | 0xe0
  | 0xe9 => some ⟨2, .immediate⟩
  | 0x05 | 0x25 | 0x45 | 0x65 | 0x24 | 0x84 | 0x85 | 0x86 | 0xa4 | 0xa5
  | 0xa6 | 0xc4 | 0xc5 | 0xc6 | 0xe4 | 0xe5 | 0xe6 | 0x06 | 0x26 | 0x46
  | 0x66 => some ⟨2, .zeroPage⟩
  | 0x15 | 0x35 | 0x55 | 0x75 | 0x94 | 0x95 | 0xb4 | 0xb5 | 0xd5 | 0xd6
  | 0xf5 | 0xf6 | 0x16 | 0x36 | 0x56 | 0x76 => some ⟨2, .zeroPageX⟩
  | 0x96 | 0xb6 => some ⟨2, .zeroPageY⟩
  | 0x0d | 0x2d | 0x4d | 0x6d | 0x2c | 0x8c | 0x8d | 0x8e | 0xac | 0xad
  | 0xae | 0xcc | 0xcd | 0xce | 0xec | 0xed | 0xee | 0x0e | 0x2e | 0x4e
  | 0x6e => some ⟨3, .absolute⟩
  | 0x1d | 0x3d | 0x5d | 0x7d | 0x9d | 0xbc | 0xbd | 0xdd | 0xde | 0xfd
  | 0xfe | 0x1e | 0x3e | 0x5e | 0x7e => some ⟨3, .absoluteX⟩
  | 0x19 | 0x39 | 0x59 | 0x79 | 0x99 | 0xb9 | 0xbe | 0xd9 | 0xf9 =>
    some ⟨3, .absoluteY⟩
  | 0x01 | 0x21 | 0x41 | 0x61 | 0x81 | 0xa1 | 0xc1 | 0xe1 =>
    some ⟨2, .indirectX⟩
  | 0x11 | 0x31 | 0x51 | 0x71 | 0x91 | 0xb1 | 0xd1 | 0xf1 =>
    some ⟨2, .indirectY⟩
  | 0x00 | 0x08 | 0x0a | 0x18 | 0x28 | 0x2a | 0x38 | 0x40 | 0x48 | 0x4a
  | 0x58 | 0x60 | 0x68 | 0x6a | 0x78 | 0x88 | 0x8a | 0x98 | 0x9a | 0xa8
  | 0xaa | 0xb8 | 0xba | 0xc8 | 0xca | 0xd8 | 0xe8 | 0xea | 0xf8 =>
    some ⟨1, .noneAddressing⟩
  | 0x10 | 0x30 | 0x50 | 0x70 | 0x90 | 0xb0 | 0xd0 | 0xf0 =>
    some ⟨2, .noneAddressing⟩
  | 0x20 | 0x4c | 0x6c => some ⟨3, .noneAddressing⟩
  | _ => none

/-- `Cpu::calculate_address`: resolve an effective address from the
addressing mode, with the zero-page wrap quirk in the indirect modes and a
panic (`NoneAddressing`) on the unsupported mode. -/
def Cpu.calculateAddress (cpu : Cpu) (mode : AddressingMode) :
    Except CpuError Nat :=
  match mode with
  | .immediate => .ok cpu.program_counter
  | .absolute => busE (cpu.bus.memReadU16 cpu.program_counter)
  | .absoluteX => do
    let base ← busE (cpu.bus.memReadU16 cpu.program_counter)
    .ok ((base + cpu.register_x) % 65536)
  | .absoluteY => do
    let base ← busE (cpu.bus.memReadU16 cpu.program_counter)
    .ok ((base + cpu.register_y) % 65536)
  | .zeroPage => busE (cpu.bus.memRead cpu.program_counter)
  | .zeroPageX => do
    let base ← busE (cpu.bus.memRead cpu.program_counter)
    .ok ((base + cpu.register_x) % 256)
  | .zeroPageY => do
    let base ← busE (cpu.bus.memRead cpu.program_counter)
    .ok ((base + cpu.register_y) % 256)
  | .indirectX => do
    let base ← busE (cpu.bus.memRead cpu.program_counter)
    let ptr := (base + cpu.register_x) % 256
    let lo ← busE (cpu.bus.memRead ptr)
    let hi ← busE (cpu.bus.memRead ((ptr + 1) % 256))
    .ok (hi <<< 8 ||| lo)
  | .indirectY => do
    let base ← busE (cpu.bus.memRead cpu.program_counter)
    let lo ← busE (cpu.bus.memRead base)
    let hi ← busE (cpu.bus.memRead ((base + 1) % 256))
    .ok (((hi <<< 8 ||| lo) + cpu.register_y) % 65536)
  | .noneAddressing => .error .noneAddressingMode

/-- `Cpu::stack_pop`: increment `SP` (8-bit wrap), then read
`0x100 + SP`. -/
def Cpu.stackPop (cpu : Cpu) : Except CpuError (Cpu × Nat) := do
  let sp := (cpu.stack_pointer + 1) % 256
  let v ← busE (cpu.bus.memRead (0x100 + sp))
  .ok ({ cpu with stack_pointer := sp }, v)

/-- `Cpu::stack_push`: write at `0x100 + SP`, then decrement `SP`
(8-bit wrap). -/
def Cpu.stackPush (cpu : Cpu) (data : Nat) : Except CpuError Cpu := do
  let bus ← busE (cpu.bus.memWrite (0x100 + cpu.stack_pointer) data)
  .ok { cpu with bus := bus, stack_pointer := (cpu.stack_pointer + 255) % 256 }

/-- `Cpu::stack_push_u16`: high byte first, then low byte. -/
def Cpu.stackPushU16 (cpu : Cpu) (data : Nat) : Except CpuError Cpu := do
  let cpu ← cpu.stackPush ((data >>> 8) % 256)
  cpu.stackPush (data &&& 0xFF)

/-- `Cpu::stack_pop_u16`: low byte first, then high byte. -/
def Cpu.stackPopU16 (cpu : Cpu) : Except CpuError (Cpu × Nat) := do
  let (cpu, lo) ← cpu.stackPop
  let (cpu, hi) ← cpu.stackPop
  .ok (cpu, hi <<< 8 ||| lo)

/-- `Cpu::compare`: `C ← (param <= reg)`, NZ from
`reg.wrapping_sub(param)`. -/
def Cpu.compare (cpu : Cpu) (mode : AddressingMode) (toValue : Nat) :
    Except CpuError Cpu := do
  let addr ← cpu.calculateAddress mode
  let param ← busE (cpu.bus.memRead addr)
  let flags := if param ≤ toValue then insertFlag cpu.flags CARRY
               else removeFlag cpu.flags CARRY
  .ok { cpu with
    flags := updateZeroAndNegativeFlags flags ((toValue + 256 - param % 256) % 256) }

/-- Sign extension of the branch operand: `param as i8 as u16`. -/
def signExtend16 (b : Nat) : Nat := if b < 0x80 then b else 0xFF00 + b

/-- The shared body of the eight branch handlers (`Cpu::beq` etc.): read
the operand at `PC`, and if the condition holds set
`PC ← PC.wrapping_add(1).wrapping_add(operand as i8 as u16)`. -/
def Cpu.branchIf (cpu : Cpu) (cond : Bool) : Except CpuError Cpu := do
  let param ← busE (cpu.bus.memRead cpu.program_counter)
  if cond then
    .ok { cpu with
      program_counter :=
        ((cpu.program_counter + 1) % 65536 + signExtend16 param) % 65536 }
  else
    .ok cpu

def Cpu.beq (cpu : Cpu) : Except CpuError Cpu :=
  cpu.branchIf (containsFlag cpu.flags ZERO)

def Cpu.bne (cpu : Cpu) : Except CpuError Cpu :=
  cpu.branchIf (!containsFlag cpu.flags ZERO)

def Cpu.bcs (cpu : Cpu) : Except CpuError Cpu :=
  cpu.branchIf (containsFlag cpu.flags CARRY)

def Cpu.bcc (cpu : Cpu) : Except CpuError Cpu :=
  cpu.branchIf (!containsFlag cpu.flags CARRY)

def Cpu.bmi (cpu : Cpu) : Except CpuError Cpu :=
  cpu.branchIf (containsFlag cpu.flags NEGATIVE)

def Cpu.bpl (cpu : Cpu) : Except CpuError Cpu :=
  cpu.branchIf (!containsFlag cpu.flags NEGATIVE)

def Cpu.bvs (cpu : Cpu) : Except CpuError Cpu :=
  cpu.branchIf (containsFlag cpu.flags OVERFLOW)

def Cpu.bvc (cpu : Cpu) : Except CpuError Cpu :=
  cpu.branchIf (!containsFlag cpu.flags OVERFLOW)

/-- `Cpu::lda`. -/
def Cpu.lda (cpu : Cpu) (mode : AddressingMode) : Except CpuError Cpu := do
  let addr ← cpu.calculateAddress mode
  let param ← busE (cpu.bus.memRead addr)
  .ok (cpu.setRegisterA param)

/-- `Cpu::ldx`. -/
def Cpu.ldx (cpu : Cpu) (mode : AddressingMode) : Except CpuError Cpu := do
  let addr ← cpu.calculateAddress mode
  let param ← busE (cpu.bus.memRead addr)
  .ok { cpu with
        register_x := param,
        flags := updateZeroAndNegativeFlags cpu.flags param }

/-- `Cpu::ldy`. -/
def Cpu.ldy (cpu : Cpu) (mode : AddressingMode) : Except CpuError Cpu := do
  let addr ← cpu.calculateAddress mode
  let param ← busE (cpu.bus.memRead addr)
  .ok { cpu with
        register_y := param,
        flags := updateZeroAndNegativeFlags cpu.flags param }

/-- `Cpu::sta`. -/
def Cpu.sta (cpu : Cpu) (mode : AddressingMode) : Except CpuError Cpu := do
  let addr ← cpu.calculateAddress mode
  let bus ← busE (cpu.bus.memWrite addr cpu.register_a)
  .ok { cpu with bus := bus }

/-- `Cpu::stx`. -/
def Cpu.stx (cpu : Cpu) (mode : AddressingMode) : Except CpuError Cpu := do
  let addr ← cpu.calculateAddress mode
  let bus ← busE (cpu.bus.memWrite addr cpu.register_x)
  .ok { cpu with bus := bus }

/-- `Cpu::sty`. -/
def Cpu.sty (cpu : Cpu) (mode : AddressingMode) : Except CpuError Cpu := do
  let addr ← cpu.calculateAddress mode
  let bus ← busE (cpu.bus.memWrite addr cpu.register_y)
  .ok { cpu with bus := bus }

/-- `Cpu::adc`: fetch the operand and feed it to the ADC core. -/
def Cpu.adc (cpu : Cpu) (mode : AddressingMode) : Except CpuError Cpu := do
  let addr ← cpu.calculateAddress mode
  let param ← busE (cpu.bus.memRead addr)
  .ok (cpu.addToRegisterA param)

/-- `Cpu::sbc`: fetch the operand and feed its complement to the ADC
core. -/
def Cpu.sbc (cpu : Cpu) (mode : AddressingMode) : Except CpuError Cpu := do
  let addr ← cpu.calculateAddress mode
  let data ← busE (cpu.bus.memRead addr)
  .ok (cpu.sbcData data)

/-- `Cpu::and`. -/
def Cpu.and (cpu : Cpu) (mode : AddressingMode) : Except CpuError Cpu := do
  let addr ← cpu.calculateAddress mode
  let param ← busE (cpu.bus.memRead addr)
  .ok (cpu.setRegisterA (cpu.register_a &&& param))

/-- `Cpu::eor`. -/
def Cpu.eor (cpu : Cpu) (mode : AddressingMode) : Except CpuError Cpu := do
  let addr ← cpu.calculateAddress mode
  let param ← busE (cpu.bus.memRead addr)
  .ok (cpu.setRegisterA (cpu.register_a ^^^ param))

/-- `Cpu::ora`. -/
def Cpu.ora (cpu : Cpu) (mode : AddressingMode) : Except CpuError Cpu := do
  let addr ← cpu.calculateAddress mode
  let param ← busE (cpu.bus.memRead addr)
  .ok (cpu.setRegisterA (cpu.register_a ||| param))

/-- `Cpu::bit`: fetch the operand and apply the BIT flag update. -/
def Cpu.bit (cpu : Cpu) (mode : AddressingMode) : Except CpuError Cpu := do
  let addr ← cpu.calculateAddress mode
  let param ← busE (cpu.bus.memRead addr)
  .ok (cpu.bitData param)

/-- `Cpu::asl_accumulator`. -/
def Cpu.aslAccumulator (cpu : Cpu) : Cpu :=
  let data := cpu.register_a
  let flags := if data >>> 7 = 1 then insertFlag cpu.flags CARRY
               else removeFlag cpu.flags CARRY
  Cpu.setRegisterA { cpu with flags := flags } ((data <<< 1) % 256)

/-- `Cpu::asl` (memory form). -/
def Cpu.asl (cpu : Cpu) (mode : AddressingMode) : Except CpuError Cpu := do
  let addr ← cpu.calculateAddress mode
  let data ← busE (cpu.bus.memRead addr)
  let flags := if data >>> 7 = 1 then insertFlag cpu.flags CARRY
               else removeFlag cpu.flags CARRY
  let data := (data <<< 1) % 256
  let bus ← busE (cpu.bus.memWrite addr data)
  .ok { cpu with
        bus := bus,
        flags := updateZeroAndNegativeFlags flags data }

/-- `Cpu::lsr_accumulator`. -/
def Cpu.lsrAccumulator (cpu : Cpu) : Cpu :=
  let m := cpu.register_a
  let flags := if m &&& 1 = 1 then insertFlag cpu.flags CARRY
               else removeFlag cpu.flags CARRY
  Cpu.setRegisterA { cpu with flags := flags } (m >>> 1)

/-- `Cpu::lsr` (memory form). -/
def Cpu.lsr (cpu : Cpu) (mode : AddressingMode) : Except CpuError Cpu := do
  let addr ← cpu.calculateAddress mode
  let m ← busE (cpu.bus.memRead addr)
  let flags := if m &&& 1 = 1 then insertFlag cpu.flags CARRY
               else removeFlag cpu.flags CARRY
  let bus ← busE (cpu.bus.memWrite addr (m >>> 1))
  .ok { cpu with
        bus := bus,
        flags := updateZeroAndNegativeFlags flags (m >>> 1) }

/-- `Cpu::rol` (memory form). Note: the source updates only `N` after the
write, not `Z`. -/
def Cpu.rol (cpu : Cpu) (mode : AddressingMode) : Except CpuError Cpu := do
  let addr ← cpu.calculateAddress mode
  let param ← busE (cpu.bus.memRead addr)
  let oldCarry := containsFlag cpu.flags CARRY
  let flags := if param >>> 7 = 1 then insertFlag cpu.flags CARRY
               else removeFlag cpu.flags CARRY
  let result := if oldCarry then ((param <<< 1) % 256) ||| 1
                else (param <<< 1) % 256
  let bus ← busE (cpu.bus.memWrite addr result)
  let flags := if result >>> 7 = 1 then insertFlag flags NEGATIVE
               else removeFlag flags NEGATIVE
  .ok { cpu with bus := bus, flags := flags }

/-- `Cpu::rol_accumulator`. -/
def Cpu.rolAccumulator (cpu : Cpu) : Cpu :=
  let param := cpu.register_a
  let oldCarry := containsFlag cpu.flags CARRY
  let flags := if param >>> 7 = 1 then insertFlag cpu.flags CARRY
               else removeFlag cpu.flags CARRY
  let result := if oldCarry then ((param <<< 1) % 256) ||| 1
                else (param <<< 1) % 256
  Cpu.setRegisterA { cpu with flags := flags } result

/-- `Cpu::ror` (memory form). As with `rol`, only `N` is updated after the
write. -/
def Cpu.ror (cpu : Cpu) (mode : AddressingMode) : Except CpuError Cpu := do
  let addr ← cpu.calculateAddress mode
  let param ← busE (cpu.bus.memRead addr)
  let oldCarry := containsFlag cpu.flags CARRY
  let flags := if param &&& 1 = 1 then insertFlag cpu.flags CARRY
               else removeFlag cpu.flags CARRY
  let result := if oldCarry then (param >>> 1) ||| 0x80 else param >>> 1
  let bus ← busE (cpu.bus.memWrite addr result)
  let flags := if result >>> 7 = 1 then insertFlag flags NEGATIVE
               else removeFlag flags NEGATIVE
  .ok { cpu with bus := bus, flags := flags }

/-- `Cpu::ror_accumulator`. -/
def Cpu.rorAccumulator (cpu : Cpu) : Cpu :=
  let param := cpu.register_a
  let oldCarry := containsFlag cpu.flags CARRY
  let flags := if param &&& 1 = 1 then insertFlag cpu.flags CARRY
               else removeFlag cpu.flags CARRY
  let result := if oldCarry then (param >>> 1) ||| 0x80 else param >>> 1
  Cpu.setRegisterA { cpu with flags := flags } result

/-- `Cpu::inc`. -/
def Cpu.inc (cpu : Cpu) (mode : AddressingMode) : Except CpuError Cpu := do
  let addr ← cpu.calculateAddress mode
  let param ← busE (cpu.bus.memRead addr)
  let result := (param + 1) % 256
  let bus ← busE (cpu.bus.memWrite addr result)
  .ok { cpu with
        bus := bus,
        flags := updateZeroAndNegativeFlags cpu.flags result }

/-- `Cpu::dec`. -/
def Cpu.dec (cpu : Cpu) (mode : AddressingMode) : Except CpuError Cpu := do
  let addr ← cpu.calculateAddress mode
  let param ← busE (cpu.bus.memRead addr)
  let result := (param + 255) % 256
  let bus ← busE (cpu.bus.memWrite addr result)
  .ok { cpu with
        bus := bus,
        flags := updateZeroAndNegativeFlags cpu.flags result }

/-- `Cpu::inx`. -/
def Cpu.inx (cpu : Cpu) : Cpu :=
  let result := (cpu.register_x + 1) % 256
  { cpu with
    register_x := result,
    flags := updateZeroAndNegativeFlags cpu.flags result }

/-- `Cpu::iny`. -/
def Cpu.iny (cpu : Cpu) : Cpu :=
  let result := (cpu.register_y + 1) % 256
  { cpu with
    register_y := result,
    flags := updateZeroAndNegativeFlags cpu.flags result }

/-- `Cpu::dex`. -/
def Cpu.dex (cpu : Cpu) : Cpu :=
  let result := (cpu.register_x + 255) % 256
  { cpu with
    register_x := result,
    flags := updateZeroAndNegativeFlags cpu.flags result }

/-- `Cpu::dey`. -/
def Cpu.dey (cpu : Cpu) : Cpu :=
  let result := (cpu.register_y + 255) % 256
  { cpu with
    register_y := result,
    flags := updateZeroAndNegativeFlags cpu.flags result }

/-- `Cpu::tax`. -/
def Cpu.tax (cpu : Cpu) : Cpu :=
  { cpu with
    register_x := cpu.register_a,
    flags := updateZeroAndNegativeFlags cpu.flags cpu.register_a }

/-- `Cpu::tay`. -/
def Cpu.tay (cpu : Cpu) : Cpu :=
  { cpu with
    register_y := cpu.register_a,
    flags := updateZeroAndNegativeFlags cpu.flags cpu.register_a }

/-- `Cpu::tsx`. -/
def Cpu.tsx (cpu : Cpu) : Cpu :=
  { cpu with
    register_x := cpu.stack_pointer,
    flags := updateZeroAndNegativeFlags cpu.flags cpu.stack_pointer }

/-- `Cpu::txa`. -/
def Cpu.txa (cpu : Cpu) : Cpu := cpu.setRegisterA cpu.register_x

/-- `Cpu::txs`: no flag update. -/
def Cpu.txs (cpu : Cpu) : Cpu := { cpu with stack_pointer := cpu.register_x }

/-- `Cpu::tya`. -/
def Cpu.tya (cpu : Cpu) : Cpu := cpu.setRegisterA cpu.register_y

/-- `Cpu::pha`. -/
def Cpu.pha (cpu : Cpu) : Except CpuError Cpu := cpu.stackPush cpu.register_a

/-- `Cpu::php`: push `P` with `B` and `B2` forced set. -/
def Cpu.php (cpu : Cpu) : Except CpuError Cpu :=
  cpu.stackPush (insertFlag (insertFlag cpu.flags BREAK) BREAK2)

/-- `Cpu::pla`. -/
def Cpu.pla (cpu : Cpu) : Except CpuError Cpu := do
  let (cpu, data) ← cpu.stackPop
  .ok (cpu.setRegisterA data)

/-- `Cpu::plp`: `P ← from_bits_truncate(pop)`, clear `B`, set `B2`. -/
def Cpu.plp (cpu : Cpu) : Except CpuError Cpu := do
  let (cpu, data) ← cpu.stackPop
  .ok { cpu with
    flags := insertFlag (removeFlag (data &&& 0xFF) BREAK) BREAK2 }

/-- The inline `RTI` arm: raw `P ← pop`, clear `B`, set `B2`,
`PC ← pop16`. -/
def Cpu.rti (cpu : Cpu) : Except CpuError Cpu := do
  let (cpu, data) ← cpu.stackPop
  let cpu := { cpu with flags := insertFlag (removeFlag data BREAK) BREAK2 }
  let (cpu, pc) ← cpu.stackPopU16
  .ok { cpu with program_counter := pc }

/-- The inline `RTS` arm: `PC ← pop16 + 1`. -/
def Cpu.rts (cpu : Cpu) : Except CpuError Cpu := do
  let (cpu, pc) ← cpu.stackPopU16
  .ok { cpu with program_counter := (pc + 1) % 65536 }

/-- The inline `JSR` arm: push `PC + 2 - 1`, then `PC ← read16(PC)`. -/
def Cpu.jsr (cpu : Cpu) : Except CpuError Cpu := do
  let cpu ← cpu.stackPushU16 ((cpu.program_counter + 2 - 1) % 65536)
  let target ← busE (cpu.bus.memReadU16 cpu.program_counter)
  .ok { cpu with program_counter := target }

/-- The inline `JMP absolute` arm. -/
def Cpu.jmpAbsolute (cpu : Cpu) : Except CpuError Cpu := do
  let memAddress ← busE (cpu.bus.memReadU16 cpu.program_counter)
  .ok { cpu with program_counter := memAddress }

/-- The inline `JMP indirect` arm, with the 6502 page-boundary bug: when
the pointer's low byte is `0xFF` the high byte of the target is fetched
from the start of the same page. -/
def Cpu.jmpIndirect (cpu : Cpu) : Except CpuError Cpu := do
  let memAddress ← busE (cpu.bus.memReadU16 cpu.program_counter)
  let indirectRef ←
    if memAddress &&& 0x00FF = 0x00FF then do
      let lo ← busE (cpu.bus.memRead memAddress)
      let hi ← busE (cpu.bus.memRead (memAddress &&& 0xFF00))
      .ok (hi <<< 8 ||| lo)
    else
      busE (cpu.bus.memReadU16 memAddress)
  .ok { cpu with program_counter := indirectRef }

/-- The byte-copy loop of `Cpu::load`: write the program sequentially
starting at `addr`. -/
def loadBytes (bus : Bus) (addr : Nat) : List Nat → Except BusError Bus
  | [] => .ok bus
  | d :: rest => do
    let bus ← bus.memWrite addr d
    loadBytes bus (addr + 1) rest

/-- `Cpu::load`: copy the program from `0x600` and write the reset vector
`0x600` to `0xFFFC/0xFFFD`. -/
def Cpu.load (cpu : Cpu) (program : List Nat) : Except BusError Cpu := do
  let bus ← loadBytes cpu.bus 0x600 program
  let bus ← bus.memWriteU16 0xFFFC 0x600
  return { cpu with bus := bus }

/-- The dispatch `match` of `run_with_callback`, minus the `0x00 => return`
arm (handled by the step function). The final `_ => todo!()` arm is the
`todoOpcode` error. -/
def Cpu.execOpcode (cpu : Cpu) (code : Nat) (op : OpCode) :
    Except CpuError Cpu :=
  match code with
  | 0xa9 | 0xa5 | 0xb5 | 0xad | 0xbd | 0xb9 | 0xa1 | 0xb1 => cpu.lda op.mode
  | 0xaa => .ok cpu.tax
  | 0xe8 => .ok cpu.inx
  | 0xd8 => .ok { cpu with flags := removeFlag cpu.flags DECIMAL_MODE }
  | 0x58 => .ok { cpu with flags := removeFlag cpu.flags INTERRUPT_DISABLE }
  | 0xb8 => .ok { cpu with flags := removeFlag cpu.flags OVERFLOW }
  | 0x18 => .ok { cpu with flags := removeFlag cpu.flags CARRY }
  | 0x38 => .ok { cpu with flags := insertFlag cpu.flags CARRY }
  | 0x78 => .ok { cpu with flags := insertFlag cpu.flags INTERRUPT_DISABLE }
  | 0xf8 => .ok { cpu with flags := insertFlag cpu.flags DECIMAL_MODE }
  | 0x48 => cpu.pha
  | 0x68 => cpu.pla
  | 0x08 => cpu.php
  | 0x28 => cpu.plp
  | 0x69 | 0x65 | 0x75 | 0x6d | 0x7d | 0x79 | 0x61 | 0x71 => cpu.adc op.mode
  | 0xe9 | 0xe5 | 0xf5 | 0xed | 0xfd | 0xf9 | 0xe1 | 0xf1 => cpu.sbc op.mode
  | 0x29 | 0x25 | 0x35 | 0x2d | 0x3d | 0x39 | 0x21 | 0x31 => cpu.and op.mode
  | 0x49 | 0x45 | 0x55 | 0x4d | 0x5d | 0x59 | 0x41 | 0x51 => cpu.eor op.mode
  | 0x09 | 0x05 | 0x15 | 0x0d | 0x1d | 0x19 | 0x01 | 0x11 => cpu.ora op.mode
  | 0x4a => .ok cpu.lsrAccumulator
  | 0x46 | 0x56 | 0x4e | 0x5e => cpu.lsr op.mode
  | 0x0a => .ok cpu.aslAccumulator
  | 0x06 | 0x16 | 0x0e | 0x1e => cpu.asl op.mode
  | 0x2a => .ok cpu.rolAccumulator
  | 0x26 | 0x36 | 0x2e | 0x3e => cpu.rol op.mode
  | 0x6a => .ok cpu.rorAccumulator
  | 0x66 | 0x76 | 0x6e | 0x7e => cpu.ror op.mode
  | 0xe6 | 0xf6 | 0xee | 0xfe => cpu.inc op.mode
  | 0xc8 => .ok cpu.iny
  | 0xc6 | 0xd6 | 0xce | 0xde => cpu.dec op.mode
  | 0xca => .ok cpu.dex
  | 0x88 => .ok cpu.dey
  | 0xc9 | 0xc5 | 0xd5 | 0xcd | 0xdd | 0xd9 | 0xc1 | 0xd1 =>
    cpu.compare op.mode cpu.register_a
  | 0xc0 | 0xc4 | 0xcc => cpu.compare op.mode cpu.register_y
  | 0xe0 | 0xe4 | 0xec => cpu.compare op.mode cpu.register_x
  | 0x4c => cpu.jmpAbsolute
  | 0x6c => cpu.jmpIndirect
  | 0x20 => cpu.jsr
  | 0x60 => cpu.rts
  | 0x40 => cpu.rti
  | 0xd0 => cpu.bne
  | 0x70 => cpu.bvs
  | 0x50 => cpu.bvc
  | 0x10 => cpu.bpl
  | 0x30 => cpu.bmi
  | 0xf0 => cpu.beq
  | 0xb0 => cpu.bcs
  | 0x90 => cpu.bcc
  | 0x24 | 0x2c => cpu.bit op.mode
  | 0x85 | 0x95 | 0x8d | 0x9d | 0x99 | 0x81 | 0x91 => cpu.sta op.mode
  | 0x86 | 0x96 | 0x8e => cpu.stx op.mode
  | 0x84 | 0x94 | 0x8c => cpu.sty op.mode
  | 0xa2 | 0xa6 | 0xb6 | 0xae | 0xbe => cpu.ldx op.mode
  | 0xa0 | 0xa4 | 0xb4 | 0xac | 0xbc => cpu.ldy op.mode
  | 0xea => .ok cpu
  | 0xa8 => .ok cpu.tay
  | 0xba => .ok cpu.tsx
  | 0x8a => .ok cpu.txa
  | 0x9a => .ok cpu.txs
  | 0x98 => .ok cpu.tya
  | _ => .error (.todoOpcode code)

/-- Result of one iteration of the `run_with_callback` loop: either the
`BRK` arm returned (before the length rule and before the callback), or
the instruction completed and the loop continues. -/
inductive StepOutcome where
  | halted (cpu : Cpu)
  | stepped (cpu : Cpu)

/-- Final program counter of a step outcome. -/
def StepOutcome.pcOf : StepOutcome → Nat
  | .halted cpu => cpu.program_counter
  | .stepped cpu => cpu.program_counter

/-- Whether the step returned from the loop. -/
def StepOutcome.isHalt : StepOutcome → Bool
  | .halted _ => true
  | .stepped _ => false

/-- One iteration of `run_with_callback`: fetch the opcode, advance `PC`,
snapshot it, look the opcode up (`expect` panics with the opcode value on
a missing entry), run the `BRK` arm or the dispatch, then apply the
length rule when the handler left `PC` at the snapshot. -/
def runStep (cpu : Cpu) : Except CpuError StepOutcome :=
  match busE (cpu.bus.memRead cpu.program_counter) with
  | .error e => .error e
  | .ok code =>
    let cpu1 := { cpu with
      program_counter := (cpu.program_counter + 1) % 65536 }
    let pcState := cpu1.program_counter
    match opcodeEntry code with
    | none => .error (.unrecognizedOpcode code)
    | some op =>
      if code = 0 then .ok (.halted cpu1)
      else
        match cpu1.execOpcode code op with
        | .error e => .error e
        | .ok cpu2 =>
          if cpu2.program_counter = pcState then
            .ok (.stepped { cpu2 with
              program_counter := (cpu2.program_counter + (op.len - 1)) % 65536 })
          else
            .ok (.stepped cpu2)

/-- Outcome of running the loop with an instruction budget: the machine
either hit `BRK` and returned, or ran out of budget. `instructions` counts
executed instructions (the final `BRK` included), `callbacks` counts
invocations of the per-instruction callback. -/
inductive RunResult where
  | halted (cpu : Cpu) (instructions : Nat) (callbacks : Nat)
  | outOfFuel (cpu : Cpu) (instructions : Nat) (callbacks : Nat)

def RunResult.instructionCount : RunResult → Nat
  | .halted _ i _ => i
  | .outOfFuel _ i _ => i

def RunResult.callbackCount : RunResult → Nat
  | .halted _ _ k => k
  | .outOfFuel _ _ k => k

def RunResult.isHalted : RunResult → Bool
  | .halted _ _ _ => true
  | .outOfFuel _ _ _ => false

def RunResult.counts (r : RunResult) : Nat × Nat :=
  (r.instructionCount, r.callbackCount)

/-- `run_with_callback`, instrumented with the two counters and a fuel
bound. The callback `cb` runs exactly where the source invokes
`callback(self)`: after the length rule of every iteration that did not
take the `BRK` arm; the `BRK` arm returns first. -/
def runWithCallbackCount (cb : Cpu → Cpu) :
    Nat → Cpu → Except CpuError RunResult
  | 0, cpu => .ok (.outOfFuel cpu 0 0)
  | fuel + 1, cpu =>
    match runStep cpu with
    | .error e => .error e
    | .ok (.halted c) => .ok (.halted c 1 0)
    | .ok (.stepped c) =>
      match runWithCallbackCount cb fuel (cb c) with
      | .error e => .error e
      | .ok (.halted c2 i k) => .ok (.halted c2 (i + 1) (k + 1))
      | .ok (.outOfFuel c2 i k) => .ok (.outOfFuel c2 (i + 1) (k + 1))

/-- The per-instruction callback contract, as the loop actually meets it:
whenever the loop returns (via `BRK`), the callback has run exactly once
per executed instruction other than the final `BRK`. -/
def haltCounts : Except CpuError RunResult → Prop
  | .ok (.halted _ i k) => i = k + 1
  | _ => True

/-- The branch condition tested by each of the eight branch opcodes, read
off the corresponding handlers; `none` for non-branch opcodes. -/
def branchTaken (code flags : Nat) : Option Bool :=
  match code with
  | 0xf0 => some (containsFlag flags ZERO)
  | 0xd0 => some (!containsFlag flags ZERO)
  | 0xb0 => some (containsFlag flags CARRY)
  | 0x90 => some (!containsFlag flags CARRY)
  | 0x30 => some (containsFlag flags NEGATIVE)
  | 0x10 => some (!containsFlag flags NEGATIVE)
  | 0x70 => some (containsFlag flags OVERFLOW)
  | 0x50 => some (!containsFlag flags OVERFLOW)
  | _ => none

/-- A machine with `A = 0xFF` and the carry flag set, as required by the
C6 claim's premise. -/
def c6Cpu : Cpu := { Cpu.new Bus.new with register_a := 0xFF, flags := 0x25 }

/-- `load` then `reset` on a fresh machine, with the three-byte demo
program `A9 05 00` (the spec's scenario 1). -/
def loadResetDemo : Except BusError Cpu := do
  let cpu ← (Cpu.new Bus.new).load [0xA9, 0x05, 0x00]
  cpu.reset

/-- A machine whose RAM is filled with `0x02`, an unofficial opcode byte
absent from the opcode table, fetching from `0x0600`. -/
def c8CpuA : Cpu := { Cpu.new ⟨fun _ => 0x02⟩ with program_counter := 0x600 }

/-- Same machine fetching the same unrecognized opcode from `0x0700`. -/
def c8CpuB : Cpu := { Cpu.new ⟨fun _ => 0x02⟩ with program_counter := 0x700 }

/-- `BEQ 0xFF` with `Z = 1` at `0x0600`. -/
def c7Cpu : Cpu :=
  { Cpu.new ⟨fun i => if i = 0x600 then 0xF0
      else if i = 0x601 then 0xFF else 0⟩ with
    program_counter := 0x600, flags := 0b100110 }

/-- `BEQ 0x80` with `Z = 1` at `0x0600`. -/
def c7DemoCpu : Cpu :=
  { Cpu.new ⟨fun i => if i = 0x600 then 0xF0
      else if i = 0x601 then 0x80 else 0⟩ with
    program_counter := 0x600, flags := 0b100110 }

/-- All-zero RAM fetching from `0x0600`: the first fetched opcode is the
`BRK` byte `0x00`. -/
def c3BrkCpu : Cpu := { Cpu.new Bus.new with program_counter := 0x600 }

/-- `LDA #$05` then `BRK` at `0x0600`. -/
def c3DemoCpu : Cpu :=
  { Cpu.new ⟨fun i => if i = 0x600 then 0xA9
      else if i = 0x601 then 0x05 else 0⟩ with
    program_counter := 0x600 }

/-- Claim C1: the spec demands that every 16-bit address can be read and
written without panicking, in particular `0x2000..=0x3FFF`. The code's
`get_real_address` instead executes `todo!("Not implemented")` there, so
both `mem_read` and `mem_write` panic on the whole PPU mirror range:
evaluated at the failing input `0x2000`, both operations abort. -/
theorem c1_ppu_range_access_is_todo_panic :
    Bus.new.memRead 0x2000 = .error .notImplemented ∧
    Bus.new.memWrite 0x2000 0 = .error .notImplemented := ⟨rfl, rfl⟩

set_option maxRecDepth 20000 in
/-- Flag outcome of the ADC/SBC core: the carry write, the overflow write
and `update_zero_and_negative_flags` leave exactly the carry condition `p`
in `C`, the overflow condition `q` in `V`, `r = 0` in `Z` and `r >> 7 = 1`
in `N`, and keep the flag byte below 256. -/
theorem arithFlags_spec (f r : Nat) (p q : Prop) [Decidable p] [Decidable q]
    (hf : f < 256) :
    containsFlag (updateZeroAndNegativeFlags
      (if q then insertFlag (if p then insertFlag f CARRY else removeFlag f CARRY) OVERFLOW
       else removeFlag (if p then insertFlag f CARRY else removeFlag f CARRY) OVERFLOW) r)
      CARRY = decide p ∧
    containsFlag (updateZeroAndNegativeFlags
      (if q then insertFlag (if p then insertFlag f CARRY else removeFlag f CARRY) OVERFLOW
       else removeFlag (if p then insertFlag f CARRY else removeFlag f CARRY) OVERFLOW) r)
      OVERFLOW = decide q ∧
    containsFlag (updateZeroAndNegativeFlags
      (if q then insertFlag (if p then insertFlag f CARRY else removeFlag f CARRY) OVERFLOW
       else removeFlag (if p then insertFlag f CARRY else removeFlag f CARRY) OVERFLOW) r)
      ZERO = decide (r = 0) ∧
    containsFlag (updateZeroAndNegativeFlags
      (if q then insertFlag (if p then insertFlag f CARRY else removeFlag f CARRY) OVERFLOW
       else removeFlag (if p then insertFlag f CARRY else removeFlag f CARRY) OVERFLOW) r)
      NEGATIVE = decide (r >>> 7 = 1) ∧
    updateZeroAndNegativeFlags
      (if q then insertFlag (if p then insertFlag f CARRY else removeFlag f CARRY) OVERFLOW
       else removeFlag (if p then insertFlag f CARRY else removeFlag f CARRY) OVERFLOW) r
      < 256 := by
  by_cases hp : p <;> by_cases hq : q <;>
    by_cases h0 : r = 0 <;> by_cases h7 : r >>> 7 = 1 <;>
    simp only [updateZeroAndNegativeFlags, hp, hq, h0, h7, if_true, if_false,
      decide_True, decide_False, eq_self_iff_true, if_pos, if_neg,
      not_true, not_false_iff, ite_true, ite_false] <;>
    (revert f; decide)

/-- Field-level description of `Cpu::add_to_register_a`. -/
theorem addToRegisterA_spec (cpu : Cpu) (data : Nat) (hf : cpu.flags < 256) :
    (cpu.addToRegisterA data).register_a =
      (cpu.register_a + data
        + (if containsFlag cpu.flags CARRY then 1 else 0)) % 256 ∧
    (cpu.addToRegisterA data).flags < 256 ∧
    containsFlag (cpu.addToRegisterA data).flags CARRY =
      decide (cpu.register_a + data
        + (if containsFlag cpu.flags CARRY then 1 else 0) > 0xFF) ∧
    containsFlag (cpu.addToRegisterA data).flags OVERFLOW =
      decide ((data ^^^ (cpu.register_a + data
          + (if containsFlag cpu.flags CARRY then 1 else 0)) % 256)
        &&& ((cpu.register_a + data
          + (if containsFlag cpu.flags CARRY then 1 else 0)) % 256
          ^^^ cpu.register_a) &&& 0x80 ≠ 0) ∧
    containsFlag (cpu.addToRegisterA data).flags ZERO =
      decide ((cpu.register_a + data
        + (if containsFlag cpu.flags CARRY then 1 else 0)) % 256 = 0) ∧
    containsFlag (cpu.addToRegisterA data).flags NEGATIVE =
      decide (((cpu.register_a + data
        + (if containsFlag cpu.flags CARRY then 1 else 0)) % 256) >>> 7 = 1) := by
  obtain ⟨hc, hv, hz, hn, hlt⟩ :=
    arithFlags_spec cpu.flags
      ((cpu.register_a + data
        + (if containsFlag cpu.flags CARRY then 1 else 0)) % 256)
      (cpu.register_a + data
        + (if containsFlag cpu.flags CARRY then 1 else 0) > 0xFF)
      ((data ^^^ (cpu.register_a + data
          + (if containsFlag cpu.flags CARRY then 1 else 0)) % 256)
        &&& ((cpu.register_a + data
          + (if containsFlag cpu.flags CARRY then 1 else 0)) % 256
          ^^^ cpu.register_a) &&& 0x80 ≠ 0) hf
  exact ⟨rfl, hlt, hc, hv, hz, hn⟩

/-- Claim C5: `ADC` (via `add_to_register_a` on the fetched operand byte
`v`) computes `s = A + v + C` in full-width arithmetic, stores
`result = s mod 256` in `A`, sets the carry to `s > 0xFF`, the overflow to
`((v XOR result) AND (result XOR A) AND 0x80) != 0` against the old `A`,
`Z` to `result == 0` and `N` to bit 7 of `result`. -/
theorem c5_adc_formula (cpu : Cpu) (v : Nat) (ha : cpu.register_a < 256)
    (hv : v < 256) (hf : cpu.flags < 256) :
    (cpu.addToRegisterA v).register_a =
      (cpu.register_a + v + (if containsFlag cpu.flags CARRY then 1 else 0)) % 256 ∧
    containsFlag (cpu.addToRegisterA v).flags CARRY =
      decide (cpu.register_a + v
        + (if containsFlag cpu.flags CARRY then 1 else 0) > 0xFF) ∧
    containsFlag (cpu.addToRegisterA v).flags OVERFLOW =
      decide ((v ^^^ (cpu.register_a + v
          + (if containsFlag cpu.flags CARRY then 1 else 0)) % 256)
        &&& ((cpu.register_a + v
          + (if containsFlag cpu.flags CARRY then 1 else 0)) % 256
          ^^^ cpu.register_a) &&& 0x80 ≠ 0) ∧
    containsFlag (cpu.addToRegisterA v).flags ZERO =
      decide ((cpu.register_a + v
        + (if containsFlag cpu.flags CARRY then 1 else 0)) % 256 = 0) ∧
    containsFlag (cpu.addToRegisterA v).flags NEGATIVE =
      Nat.testBit ((cpu.register_a + v
        + (if containsFlag cpu.flags CARRY then 1 else 0)) % 256) 7 := by
  obtain ⟨h1, _, h2, h3, h4, h5⟩ := addToRegisterA_spec cpu v hf
  refine ⟨h1, h2, h3, h4, ?_⟩
  rw [h5, Nat.testBit_to_div_mod, decide_eq_decide, Nat.shiftRight_eq_div_pow]
  have hr : (cpu.register_a + v
    + (if containsFlag cpu.flags CARRY then 1 else 0)) % 256 < 256 :=
    Nat.mod_lt _ (by norm_num)
  constructor <;> intro h <;> omega

/-- Witness for C5 at the spec's scenario 7: `A = 0x50`, `v = 0x50`,
`C = 0` gives `A = 0xA0` with carry clear and overflow and negative set. -/
theorem c5_adc_formula_witness :
    (({ Cpu.new Bus.new with register_a := 0x50 }).addToRegisterA 0x50).register_a
      = 0xA0 ∧
    containsFlag (({ Cpu.new Bus.new with register_a := 0x50 }).addToRegisterA
      0x50).flags CARRY = false ∧
    containsFlag (({ Cpu.new Bus.new with register_a := 0x50 }).addToRegisterA
      0x50).flags OVERFLOW = true ∧
    containsFlag (({ Cpu.new Bus.new with register_a := 0x50 }).addToRegisterA
      0x50).flags NEGATIVE = true := by
  obtain ⟨h1, h2, h3, _, h5⟩ :=
    c5_adc_formula { Cpu.new Bus.new with register_a := 0x50 } 0x50
      (by decide) (by decide) (by decide)
  exact ⟨by rw [h1]; decide, by rw [h2]; decide,
         by rw [h3]; decide, by rw [h5]; decide⟩

/-- Claim C6, counterexample: with the carry set beforehand, `ADC 0`
followed by `SBC 0` does not restore `A` when the ADC carries out:
starting from `A = 0xFF` the pair ends with `A = 0`, not `0xFF`. -/
theorem c6_counterexample :
    containsFlag c6Cpu.flags CARRY = true ∧
    ((c6Cpu.addToRegisterA 0).sbcData 0).register_a = 0 ∧
    c6Cpu.register_a = 0xFF := by
  refine ⟨by decide, by decide, by decide⟩

/-- Claim C6 as amended: if the carry flag is set beforehand and the `ADC`
produces no carry out (`A + v + 1 ≤ 0xFF`), then `ADC v` followed by
`SBC v` restores both `A` and the carry flag. -/
theorem c6_adc_sbc_restore (cpu : Cpu) (v : Nat) (ha : cpu.register_a < 256)
    (hv : v < 256) (hf : cpu.flags < 256)
    (hc : containsFlag cpu.flags CARRY = true)
    (hnc : cpu.register_a + v < 0xFF) :
    ((cpu.addToRegisterA v).sbcData v).register_a = cpu.register_a ∧
    containsFlag ((cpu.addToRegisterA v).sbcData v).flags CARRY = true := by
  obtain ⟨hA1, hF1, hC1, _, _, _⟩ := addToRegisterA_spec cpu v hf
  rw [hc, if_pos rfl] at hA1 hC1
  have hr1 : (cpu.register_a + v + 1) % 256 = cpu.register_a + v + 1 :=
    Nat.mod_eq_of_lt (by omega)
  rw [hr1] at hA1
  have hc1 : containsFlag (cpu.addToRegisterA v).flags CARRY = false := by
    rw [hC1]; exact decide_eq_false (by omega)
  obtain ⟨hA2, _, hC2, _, _, _⟩ :=
    addToRegisterA_spec (cpu.addToRegisterA v) (sbcComplement v) hF1
  rw [hc1] at hA2 hC2
  simp only [Bool.false_eq_true, if_false] at hA2 hC2
  have hcompl : sbcComplement v = 255 - v := by
    unfold sbcComplement; omega
  rw [hcompl, hA1] at hA2 hC2
  have hsum : cpu.register_a + v + 1 + (255 - v) + 0 = cpu.register_a + 256 := by
    omega
  rw [hsum] at hA2 hC2
  constructor
  · show ((cpu.addToRegisterA v).addToRegisterA (sbcComplement v)).register_a
      = cpu.register_a
    rw [hcompl, hA2]; omega
  · show containsFlag
      ((cpu.addToRegisterA v).addToRegisterA (sbcComplement v)).flags CARRY = true
    rw [hcompl, hC2]; exact decide_eq_true (by omega)

theorem c6_adc_sbc_restore_witness :
    containsFlag ({ Cpu.new Bus.new with
      register_a := 0x10, flags := 0x25 } : Cpu).flags CARRY = true ∧
    ((({ Cpu.new Bus.new with
        register_a := 0x10, flags := 0x25 } : Cpu).addToRegisterA 0x20).sbcData
      0x20).register_a = 0x10 ∧
    containsFlag ((({ Cpu.new Bus.new with
        register_a := 0x10, flags := 0x25 } : Cpu).addToRegisterA 0x20).sbcData
      0x20).flags CARRY = true := by
  obtain ⟨hA, hC⟩ := c6_adc_sbc_restore
    { Cpu.new Bus.new with register_a := 0x10, flags := 0x25 } 0x20
    (by decide) (by decide) (by decide) (by decide) (by decide)
  exact ⟨by decide, hA, hC⟩

/-- Claim C2: after `load` + `reset` the registers and flags are as the
spec says, but `PC = 0`, not `0x0600`: `load` sends the reset vector to
`0xFFFC/0xFFFD`, which the Bus silently drops (`get_real_address` returns
`None` above `0x3FFF`), and `reset` then reads 0 from both vector bytes. -/
theorem c2_load_reset_pc_is_zero :
    loadResetDemo.map Cpu.program_counter = .ok 0 ∧
    loadResetDemo.map Cpu.program_counter ≠ .ok 0x600 ∧
    loadResetDemo.map Cpu.register_a = .ok 0 ∧
    loadResetDemo.map Cpu.register_x = .ok 0 ∧
    loadResetDemo.map Cpu.register_y = .ok 0 ∧
    loadResetDemo.map Cpu.stack_pointer = .ok 0xFD ∧
    loadResetDemo.map Cpu.flags = .ok 0b100100 :=
  ⟨rfl, by intro h; injection h with h2; exact absurd h2 (by decide),
   rfl, rfl, rfl, rfl, rfl⟩

/-- Claim C4: the spec requires `N ← bit7(v)` and `V ← bit6(v)` taken from
the memory byte and updated on every execution. The code computes both from
`v AND A` and only ever inserts them. With `A = 0`, `P = 0b100100`:
`BIT v` with `v = 0x80` leaves `N` clear (the claim demands `N = 1`), with
`v = 0x40` leaves `V` clear (the claim demands `V = 1`); and with `N`
already set, `BIT 0` leaves `N` set (the claim demands `N = 0`). -/
theorem c4_bit_flags_from_and_result :
    ((Cpu.new Bus.new).bitData 0x80).flags &&& NEGATIVE = 0 ∧
    ((Cpu.new Bus.new).bitData 0x40).flags &&& OVERFLOW = 0 ∧
    (({ Cpu.new Bus.new with flags := 0xA4 }).bitData 0).flags &&& NEGATIVE
      = NEGATIVE := by
  refine ⟨by decide, by decide, by decide⟩

/-- Claim C8 as amended: on a fetched byte with no opcode-table entry the
interpreter halts, and the diagnostic (the `expect` panic payload) reports
the opcode value. -/
theorem c8_unrecognized_opcode_reports_code (cpu : Cpu) (code : Nat)
    (hcode : cpu.bus.memRead cpu.program_counter = .ok code)
    (hnone : opcodeEntry code = none) :
    runStep cpu = .error (.unrecognizedOpcode code) := by
  simp only [runStep, hcode, busE, hnone]

/-- Claim C8, counterexample to "reports the PC": two executions that fetch
the same unrecognized opcode at different PCs produce identical
diagnostics, so the diagnostic cannot report the PC. -/
theorem c8_counterexample_diagnostic_has_no_pc :
    runStep c8CpuA = .error (.unrecognizedOpcode 0x02) ∧
    runStep c8CpuB = .error (.unrecognizedOpcode 0x02) ∧
    c8CpuA.program_counter ≠ c8CpuB.program_counter :=
  ⟨rfl, rfl, by decide⟩

theorem c8_unrecognized_opcode_reports_code_witness :
    runStep c8CpuA = .error (.unrecognizedOpcode 0x02) :=
  c8_unrecognized_opcode_reports_code c8CpuA 0x02 rfl rfl

/-- Workhorse for C7: a taken branch whose handler is `branchIf` with a
true condition and whose offset is not `0xFF` leaves the next fetch at
`PC_after_operand + offset` (16-bit wrap). -/
theorem runStep_branch_taken_aux (cpu : Cpu) (code d : Nat)
    (condf : Nat → Bool)
    (hcode : cpu.bus.memRead cpu.program_counter = .ok code)
    (hd : cpu.bus.memRead ((cpu.program_counter + 1) % 65536) = .ok d)
    (hpc : cpu.program_counter < 65536) (hdlt : d < 256) (hdne : d ≠ 0xFF)
    (hop : opcodeEntry code = some ⟨2, .noneAddressing⟩)
    (hcode0 : ¬ code = 0)
    (hexec : ∀ c : Cpu,
      c.execOpcode code ⟨2, .noneAddressing⟩ = c.branchIf (condf c.flags))
    (hcond : condf cpu.flags = true) :
    (runStep cpu).map StepOutcome.pcOf =
      .ok ((cpu.program_counter + 2 + signExtend16 d) % 65536) ∧
    (runStep cpu).map StepOutcome.isHalt = .ok false := by
  have hne : (cpu.program_counter + 2 + signExtend16 d) % 65536
      ≠ (cpu.program_counter + 1) % 65536 := by
    unfold signExtend16
    split <;> omega
  have hmod : (((cpu.program_counter + 1) % 65536 + 1) % 65536
      + signExtend16 d) % 65536
      = (cpu.program_counter + 2 + signExtend16 d) % 65536 := by
    omega
  simp only [runStep, hcode, busE, hop, if_neg hcode0, hexec,
    Cpu.branchIf, hd, hcond, if_true, bind, Except.bind]
  simp only [if_neg hne, Except.map, StepOutcome.pcOf, StepOutcome.isHalt,
    hmod]
  exact ⟨trivial, trivial⟩

/-- Claim C7 as amended: for every branch opcode whose condition holds,
and every operand byte `d` other than `0xFF`, the next opcode is fetched
from `PC_after_operand + signext(d)` with 16-bit wrap (the post-operand PC
is `PC_opcode + 2`). With `d = 0xFF` the branch target coincides with the
loop's PC snapshot, so the length rule additionally advances `PC`; see the
counterexample. -/
theorem c7_branch_signed_offset (cpu : Cpu) (code d : Nat)
    (hbt : branchTaken code cpu.flags = some true)
    (hcode : cpu.bus.memRead cpu.program_counter = .ok code)
    (hd : cpu.bus.memRead ((cpu.program_counter + 1) % 65536) = .ok d)
    (hpc : cpu.program_counter < 65536) (hdlt : d < 256) (hdne : d ≠ 0xFF) :
    (runStep cpu).map StepOutcome.pcOf =
      .ok ((cpu.program_counter + 2 + signExtend16 d) % 65536) ∧
    (runStep cpu).map StepOutcome.isHalt = .ok false := by
  unfold branchTaken at hbt
  split at hbt
  · exact runStep_branch_taken_aux cpu 0xf0 d (fun f => containsFlag f ZERO)
      hcode hd hpc hdlt hdne rfl (by decide) (fun c => rfl)
      (Option.some.inj hbt)
  · exact runStep_branch_taken_aux cpu 0xd0 d (fun f => !containsFlag f ZERO)
      hcode hd hpc hdlt hdne rfl (by decide) (fun c => rfl)
      (Option.some.inj hbt)
  · exact runStep_branch_taken_aux cpu 0xb0 d (fun f => containsFlag f CARRY)
      hcode hd hpc hdlt hdne rfl (by decide) (fun c => rfl)
      (Option.some.inj hbt)
  · exact runStep_branch_taken_aux cpu 0x90 d (fun f => !containsFlag f CARRY)
      hcode hd hpc hdlt hdne rfl (by decide) (fun c => rfl)
      (Option.some.inj hbt)
  · exact runStep_branch_taken_aux cpu 0x30 d
      (fun f => containsFlag f NEGATIVE)
      hcode hd hpc hdlt hdne rfl (by decide) (fun c => rfl)
      (Option.some.inj hbt)
  · exact runStep_branch_taken_aux cpu 0x10 d
      (fun f => !containsFlag f NEGATIVE)
      hcode hd hpc hdlt hdne rfl (by decide) (fun c => rfl)
      (Option.some.inj hbt)
  · exact runStep_branch_taken_aux cpu 0x70 d
      (fun f => containsFlag f OVERFLOW)
      hcode hd hpc hdlt hdne rfl (by decide) (fun c => rfl)
      (Option.some.inj hbt)
  · exact runStep_branch_taken_aux cpu 0x50 d
      (fun f => !containsFlag f OVERFLOW)
      hcode hd hpc hdlt hdne rfl (by decide) (fun c => rfl)
      (Option.some.inj hbt)
  · exact absurd hbt (by simp)

/-- Claim C7, counterexample: a taken `BEQ` with offset `0xFF` (signed −1)
should land at the operand byte, `0x0601`; the emulator instead continues
at `0x0602` because the branch target equals the loop's PC snapshot and
the length rule fires on top of it. -/
theorem c7_counterexample_offset_ff :
    (runStep c7Cpu).map StepOutcome.pcOf = .ok 0x602 ∧
    (0x600 + 2 + signExtend16 0xFF) % 65536 = 0x601 ∧
    (0x602 : Nat) ≠ 0x601 :=
  ⟨rfl, by decide, by decide⟩

/-- Witness for C7: `BEQ 0x80` taken at `0x0600` lands 128 bytes backward
from the post-operand PC, at `0x0582`. -/
theorem c7_branch_signed_offset_witness :
    (runStep c7DemoCpu).map StepOutcome.pcOf = .ok 0x582 ∧
    (runStep c7DemoCpu).map StepOutcome.isHalt = .ok false := by
  obtain ⟨h1, h2⟩ := c7_branch_signed_offset c7DemoCpu 0xF0 0x80
    (by decide) rfl rfl (by decide) (by decide) (by decide)
  have hval : (c7DemoCpu.program_counter + 2 + signExtend16 0x80) % 65536
      = 0x582 := by decide
  exact ⟨by rw [h1, hval], h2⟩

/-- Claim C3, counterexample: running a lone `BRK` executes one
instruction but invokes the callback zero times — the `0x00 => return` arm
exits `run_with_callback` before the `callback(self)` call, so the final
`BRK` gets no callback invocation. -/
theorem c3_counterexample_brk_skips_callback :
    (runWithCallbackCount id 5 c3BrkCpu).map RunResult.counts = .ok (1, 0) ∧
    (runWithCallbackCount id 5 c3BrkCpu).map RunResult.callbackCount ≠
      (runWithCallbackCount id 5 c3BrkCpu).map RunResult.instructionCount :=
  ⟨rfl, by intro h; injection h with h2; exact absurd h2 (by decide)⟩

/-- Claim C3 as amended: for every callback and every starting state, when
`run_with_callback` returns via `BRK` the callback has been invoked
exactly once per executed instruction except the final `BRK` — one fewer
invocation than instructions executed. -/
theorem c3_callback_once_per_instruction_except_brk (cb : Cpu → Cpu)
    (fuel : Nat) (cpu : Cpu) :
    haltCounts (runWithCallbackCount cb fuel cpu) := by
  induction fuel generalizing cpu with
  | zero => simp [runWithCallbackCount, haltCounts]
  | succ n ih =>
    unfold runWithCallbackCount
    cases hstep : runStep cpu with
    | error e => simp [haltCounts]
    | ok o =>
      cases o with
      | halted c => simp [haltCounts]
      | stepped c =>
        dsimp only
        have hrec := ih (cb c)
        cases hrun : runWithCallbackCount cb n (cb c) with
        | error e => simp [haltCounts]
        | ok r =>
          rw [hrun] at hrec
          cases r with
          | halted c2 i k =>
            simp only [haltCounts] at hrec ⊢
            omega
          | outOfFuel c2 i k => simp [haltCounts]

/-- Witness for C3 at the program `LDA #$05; BRK`: the loop halts having
executed two instructions and invoked the callback once. -/
theorem c3_callback_once_witness :
    haltCounts (runWithCallbackCount id 9 c3DemoCpu) ∧
    (runWithCallbackCount id 9 c3DemoCpu).map RunResult.counts = .ok (2, 1) :=
  ⟨c3_callback_once_per_instruction_except_brk id 9 c3DemoCpu, rfl⟩

/-- Claim C9: RAM mirroring. For every bus state (hence after any sequence
of RAM-only writes) and every address below `0x2000`, reading `a` and
reading `a &&& 0x07FF` decode to the same RAM cell and return the same
byte. -/
theorem c9_ram_mirroring (bus : Bus) (a : Nat) (ha : a < 0x2000) :
    bus.memRead a = bus.memRead (a &&& 0x7FF) := by
  have hmask : ∀ x : Nat, x &&& 0x7FF = x % 0x800 := by
    intro x
    have := Nat.and_pow_two_sub_one_eq_mod x 11
    norm_num at this
    exact this
  have h1 : a &&& 0x7FF = a % 0x800 := hmask a
  have h2 : a % 0x800 &&& 0x7FF = a % 0x800 := by
    rw [hmask]; omega
  simp only [Bus.memRead, getRealAddress]
  rw [if_pos (by omega), if_pos (by rw [hmask]; omega), h1, h2]

theorem c9_ram_mirroring_witness :
    Bus.new.memRead 0x1805 = Bus.new.memRead (0x1805 &&& 0x7FF) :=
  c9_ram_mirroring Bus.new 0x1805 (by norm_num)

/-- Claim C10: writes to `0x4000..=0xFFFF` decode to `None` and are dropped:
the Bus value returned is the unchanged input bus, so every subsequent read
(at any address) returns exactly what it returned before the write. -/
theorem c10_high_writes_dropped (bus : Bus) (a v : Nat)
    (hlo : 0x4000 ≤ a) (hhi : a ≤ 0xFFFF) :
    bus.memWrite a v = .ok bus := by
  simp only [Bus.memWrite, getRealAddress]
  rw [if_neg (by omega), if_neg (by omega)]

theorem c10_high_writes_dropped_witness :
    Bus.new.memWrite 0x8000 7 = .ok Bus.new :=
  c10_high_writes_dropped Bus.new 0x8000 7 (by norm_num) (by norm_num)
